import Mathlib

/-!
Verification of the MCP gateway server (`mcp-server/mcp_server_node.js`).

The gateway is a JSON-RPC 2.0 dispatcher mounted on `app.post('/')`.  We embed
the handler as a pure function over a model of JavaScript values.  External
collaborators (the payment provider reached through `requirePayment`, and the
RAG backend reached through `fetch`) are modelled as an environment of
oracles; the handler records an explicit event trace of the collaborator
calls it issues, so that ordering and counting properties can be stated.
-/

/-- A JavaScript value, as far as the handler inspects them.  `undefined` is the
JavaScript `undefined` (a missing object field reads as `undefined`). -/
inductive JSVal where
  | undefined
  | null
  | bool (b : Bool)
  | num (n : Int)
  | str (s : String)
  | arr (elems : List JSVal)
  | obj (fields : List (String × JSVal))
deriving Repr

/-- Property read `v[k]` on a value that is not nullish: objects yield the
first field with that key (or `undefined`); primitives and arrays have no own
properties the handler ever reads, so they yield `undefined`. -/
def JSVal.get (v : JSVal) (k : String) : JSVal :=
  match v with
  | .obj fields =>
    match fields.lookup k with
    | some x => x
    | none => .undefined
  | _ => .undefined

/-- Nullish test: `null` and `undefined` are the values whose property
reads (and destructurings) throw a `TypeError` in JavaScript. -/
def JSVal.isNullish : JSVal → Bool
  | .undefined => true
  | .null => true
  | _ => false

/-- JavaScript strict equality `v === 's'` against a string literal. -/
def JSVal.isStr (v : JSVal) (s : String) : Bool :=
  match v with
  | .str t => t == s
  | _ => false

mutual

/-- String coercion of a value inside a template literal, `${v}`. -/
def jsTemplate : JSVal → String
  | .undefined => "undefined"
  | .null => "null"
  | .bool b => cond b "true" "false"
  | .num n => toString n
  | .str s => s
  | .arr elems => jsTemplateArr elems
  | .obj _ => "[object Object]"

/-- Array-to-string coercion: elements joined by commas. -/
def jsTemplateArr : List JSVal → String
  | [] => ""
  | [v] => jsTemplateElem v
  | v :: rest => jsTemplateElem v ++ "," ++ jsTemplateArr rest

/-- Element coercion inside an array: `null`/`undefined` print as empty. -/
def jsTemplateElem : JSVal → String
  | .undefined => ""
  | .null => ""
  | .bool b => cond b "true" "false"
  | .num n => toString n
  | .str s => s
  | .arr elems => jsTemplateArr elems
  | .obj _ => "[object Object]"

end

/-- The message of the `TypeError` thrown by destructuring a nullish value,
as in `const { method, params, id } = req.body`. -/
def destructureMsg (prop : String) (v : JSVal) : String :=
  "Cannot destructure property " ++ prop ++ " as it is " ++ jsTemplate v

/-- The message of the `TypeError` thrown by reading a property of a nullish
value, as in `req.body.id` when `req.body` is undefined. -/
def readPropMsg (prop : String) (v : JSVal) : String :=
  "Cannot read properties of " ++ jsTemplate v ++ " (reading " ++ prop ++ ")"

/-- Result of `await requirePayment(...)`: either it returns, or it throws an
error carrying a message. -/
inductive PayResult where
  | ok
  | err (msg : String)
deriving Repr, DecidableEq

/-- The resolved value of `await fetch(...)`: HTTP success flag `ok`, numeric
`status`, and the result of `response.json()` (which itself may throw). -/
structure BackendResp where
  ok : Bool
  status : Nat
  json : Except String JSVal

/-- Behaviour of the two external collaborators during one request:
`payment p` is `requirePayment` called with price argument `p`
(`none` models the JavaScript value `undefined`, which is what
`prices[mode]` yields for a mode outside the price table); `backend q m` is
the `fetch` of `{question: q, mode: m}` to the RAG backend, `Except.error`
modelling a rejected fetch. -/
structure Env where
  payment : Option Rat → PayResult
  backend : JSVal → JSVal → Except String BackendResp

/-- Observable collaborator calls issued while handling one request. -/
inductive Event where
  | payment (price : Option Rat)
  | backend (question : JSVal) (mode : JSVal)
deriving Repr

/-- What the handler sent on the HTTP response: a JSON body via `res.json`,
or the bare `res.status(200).end()` used for notifications. -/
inductive HttpResp where
  | json (v : JSVal)
  | empty200
deriving Repr

/-- Outcome of one invocation of the POST handler: either exactly one
response was emitted, or an exception escaped the handler (no response). -/
inductive Outcome where
  | responded (r : HttpResp) (events : List Event)
  | crashed (msg : String) (events : List Event)
deriving Repr

/-- The collaborator-call trace of an outcome. -/
def Outcome.events : Outcome → List Event
  | .responded _ evs => evs
  | .crashed _ evs => evs

/-- Whether the handler emitted a response at all. -/
def didRespond : Outcome → Bool
  | .responded _ _ => true
  | .crashed _ _ => false

/-- A JSON-RPC 2.0 error envelope, as built by the handler. -/
def jsonrpcError (id : JSVal) (code : Int) (message : String) : JSVal :=
  .obj [("jsonrpc", .str "2.0"), ("id", id),
        ("error", .obj [("code", .num code), ("message", .str message)])]

/-- A JSON-RPC 2.0 result envelope, as built by the handler. -/
def jsonrpcResult (id : JSVal) (result : JSVal) : JSVal :=
  .obj [("jsonrpc", .str "2.0"), ("id", id), ("result", result)]

/-- The fixed `initialize` result: protocol version, capabilities, server
info (lines 49-62 of the handler). -/
def initResult : JSVal :=
  .obj [("protocolVersion", .str "2024-11-05"),
        ("capabilities", .obj [("tools", .obj [])]),
        ("serverInfo", .obj [("name", .str "interview-rag-server"),
                             ("version", .str "1.0.0")])]

/-- The single tool descriptor advertised by `tools/list` (lines 74-90). -/
def askRagTool : JSVal :=
  .obj [("name", .str "ask_rag"),
        ("description", .str "Ask questions about uploaded documents"),
        ("inputSchema",
          .obj [("type", .str "object"),
                ("properties",
                  .obj [("question",
                          .obj [("type", .str "string"),
                                ("description", .str "Your question")]),
                        ("mode",
                          .obj [("type", .str "string"),
                                ("enum", .arr [.str "auto", .str "qa", .str "summary"]),
                                ("description", .str "Answer mode"),
                                ("default", .str "auto")])]),
                ("required", .arr [.str "question"])])]

/-- The `tools/list` result object (lines 72-92). -/
def toolsListResult : JSVal :=
  .obj [("tools", .arr [askRagTool])]

/-- The price table (lines 100-104): `BigNumber('0.01')` etc., modelled as
exact rationals. -/
def prices : List (String × Rat) :=
  [("qa", 1/100), ("summary", 5/100), ("auto", 5/100)]

/-- Bracket lookup `prices[mode]`: JavaScript coerces the key to a string;
a mode outside the table yields `undefined` (`none`). -/
def lookupPrice (mode : JSVal) : Option Rat :=
  prices.lookup (jsTemplate mode)

/-- Destructuring default from `const ... mode = ... = args`: the default
value "auto" fires exactly when the read value is `undefined`. -/
def resolveMode : JSVal → JSVal
  | .undefined => .str "auto"
  | v => v

/-- The text of the success content block (line 144):
`Question: ...\nMode: ...\n\nAnswer:\n...`. -/
def formatText (question mode answer : JSVal) : String :=
  "Question: " ++ jsTemplate question ++ "\nMode: " ++ jsTemplate mode ++
    "\n\nAnswer:\n" ++ jsTemplate answer

/-- The success result shape (lines 141-146): one textual content block. -/
def successResult (question data : JSVal) : JSVal :=
  .obj [("content",
          .arr [.obj [("type", .str "text"),
                      ("text", .str (formatText question (data.get "mode")
                                      (data.get "answer")))]])]

/-- The top-level `catch` (lines 162-169): replies with a code `-32603`
envelope whose id is `req.body.id`; that read itself throws when the body is
nullish, so the exception escapes and no response is emitted. -/
def handleCatch (body : JSVal) (msg : String) (evs : List Event) : Outcome :=
  if body.isNullish then .crashed (readPropMsg "id" body) evs
  else .responded (.json (jsonrpcError (body.get "id") (-32603) msg)) evs

/-- Lines 125-147: the fetch to the RAG backend and the translation of its
reply, entered only after `requirePayment` returned.  Any throw in this
region is handled by the top-level catch. -/
def afterPayment (env : Env) (body id question mode : JSVal)
    (price : Option Rat) : Outcome :=
  let evs := [Event.payment price, Event.backend question mode]
  match env.backend question mode with
  | .error msg => handleCatch body msg evs
  | .ok resp =>
    if !resp.ok then
      handleCatch body ("RAG backend returned " ++ toString resp.status) evs
    else
      match resp.json with
      | .error msg => handleCatch body msg evs
      | .ok data =>
        if data.isNullish then handleCatch body (readPropMsg "mode" data) evs
        else .responded (.json (jsonrpcResult id (successResult question data))) evs

/-- Lines 98-147: the `ask_rag` branch.  Destructures `args` (throwing to
the top-level catch when nullish), applies the `mode = 'auto'` default,
looks up the price and requires payment; a payment throw is answered in the
local catch (lines 112-122) and the backend is then never reached. -/
def askRagCall (env : Env) (body id args : JSVal) : Outcome :=
  if args.isNullish then handleCatch body (destructureMsg "question" args) []
  else
    let question := args.get "question"
    let mode := resolveMode (args.get "mode")
    let price := lookupPrice mode
    match env.payment price with
    | .err msg =>
      .responded (.json (jsonrpcError id (-32603) ("Payment failed: " ++ msg)))
        [Event.payment price]
    | .ok => afterPayment env body id question mode price

/-- The whole `app.post('/')` handler (lines 41-170): destructure the body
(nullish bodies throw, and the catch block's `req.body.id` then rethrows),
dispatch on `method`, with the `tools/call` branch destructuring `params`
and dispatching on the tool name. -/
def handle (body : JSVal) (env : Env) : Outcome :=
  if body.isNullish then handleCatch body (destructureMsg "method" body) []
  else
    let method := body.get "method"
    let id := body.get "id"
    if method.isStr "initialize" then
      .responded (.json (jsonrpcResult id initResult)) []
    else if method.isStr "notifications/initialized" then
      .responded .empty200 []
    else if method.isStr "tools/list" then
      .responded (.json (jsonrpcResult id toolsListResult)) []
    else if method.isStr "tools/call" then
      let params := body.get "params"
      if params.isNullish then handleCatch body (destructureMsg "name" params) []
      else
        let name := params.get "name"
        if name.isStr "ask_rag" then
          askRagCall env body id (params.get "arguments")
        else
          .responded (.json (jsonrpcError id (-32601)
            ("Unknown tool: " ++ jsTemplate name))) []
    else
      .responded (.json (jsonrpcError id (-32601)
        ("Unknown method: " ++ jsTemplate method))) []

/-! ## Observers used by the claims -/

/-- Whether an event is a backend (fetch) call. -/
def isBackendEv : Event → Bool
  | .backend _ _ => true
  | _ => false

/-- Whether an event is a payment-gate call. -/
def isPaymentEv : Event → Bool
  | .payment _ => true
  | _ => false

/-- Whether the outcome's trace contains a backend call. -/
def hasBackendCall (o : Outcome) : Bool := o.events.any isBackendEv

/-- Number of backend calls in the outcome's trace. -/
def countBackend (o : Outcome) : Nat := (o.events.filter isBackendEv).length

/-- Number of payment-gate calls in the outcome's trace. -/
def countPayment (o : Outcome) : Nat := (o.events.filter isPaymentEv).length

/-- The numeric error code of the response, when the outcome is a JSON
response carrying an error object. -/
def errorCodeOf : Outcome → Option Int
  | .responded (.json v) _ =>
    match v.get "error" with
    | .obj errFields =>
      match (JSVal.obj errFields).get "code" with
      | .num c => some c
      | _ => none
    | _ => none
  | _ => none

/-- The id-echo property of an outcome: whenever a JSON body was sent, its
`id` field equals the request body's `id` field. -/
def respondsWithId (body : JSVal) : Outcome → Prop
  | .responded (.json v) _ => v.get "id" = body.get "id"
  | _ => True

/-- A well-formed `tools/call` request for `ask_rag` with the given id,
`question` and `mode` argument values (`JSVal.undefined` models an absent
argument: property reads and the destructuring default treat the two
identically). -/
def askRagBody (id question mode : JSVal) : JSVal :=
  .obj [("jsonrpc", .str "2.0"), ("id", id), ("method", .str "tools/call"),
        ("params",
          .obj [("name", .str "ask_rag"),
                ("arguments", .obj [("question", question), ("mode", mode)])])]

/-- Substring occurrence: `needle` occurs verbatim inside `hay`. -/
def containsSub (needle hay : String) : Prop :=
  ∃ s t : String, hay = s ++ needle ++ t

/-! ## Concrete environments for witnesses and counterexamples -/

/-- Backend payload used by concrete runs: `{mode: "qa", answer: "42"}`. -/
def qaAnswerData : JSVal :=
  .obj [("mode", .str "qa"), ("answer", .str "42")]

/-- Payment always authorizes; backend answers 200 with `qaAnswerData`. -/
def payOkEnv : Env where
  payment := fun _ => .ok
  backend := fun _ _ => .ok ⟨true, 200, .ok qaAnswerData⟩

/-- Payment always throws with reason "declined"; backend as in `payOkEnv`. -/
def payFailEnv : Env where
  payment := fun _ => .err "declined"
  backend := fun _ _ => .ok ⟨true, 200, .ok qaAnswerData⟩

/-- Payment authorizes; backend replies with a non-success 500 status. -/
def backend500Env : Env where
  payment := fun _ => .ok
  backend := fun _ _ => .ok ⟨false, 500, .ok .null⟩

example : handle (askRagBody (.num 1) (.str "q") (.str "qa")) payOkEnv
    = .responded (.json (jsonrpcResult (.num 1) (successResult (.str "q") qaAnswerData)))
        [.payment (some (1/100)), .backend (.str "q") (.str "qa")] := rfl

example : handle (askRagBody (.num 1) (.str "q") .undefined) payFailEnv
    = .responded (.json (jsonrpcError (.num 1) (-32603) "Payment failed: declined"))
        [.payment (some (5/100))] := rfl

example : didRespond (handle JSVal.undefined payOkEnv) = false := rfl

/-! ## Helper lemmas -/

theorem isStr_iff (v : JSVal) (s : String) :
    v.isStr s = true ↔ v = .str s := by
  cases v <;> simp [JSVal.isStr]

theorem get_id_jsonrpcResult (i r : JSVal) :
    (jsonrpcResult i r).get "id" = i := rfl

theorem get_id_jsonrpcError (i : JSVal) (c : Int) (m : String) :
    (jsonrpcError i c m).get "id" = i := rfl

theorem askRagBody_not_nullish (id question mode : JSVal) :
    (askRagBody id question mode).isNullish = false := rfl

/-- Reduction of the handler on a well-formed `ask_rag` call: it goes
straight to the payment gate. -/
theorem handle_askRag (env : Env) (id question mode : JSVal) :
    handle (askRagBody id question mode) env
      = match env.payment (lookupPrice (resolveMode mode)) with
        | .err msg =>
          .responded (.json (jsonrpcError id (-32603) ("Payment failed: " ++ msg)))
            [Event.payment (lookupPrice (resolveMode mode))]
        | .ok => afterPayment env (askRagBody id question mode) id question
            (resolveMode mode) (lookupPrice (resolveMode mode)) := rfl

/-- Whatever the backend does, the post-payment phase records exactly the
payment call followed by the backend call. -/
theorem afterPayment_events (env : Env) (body id question mode : JSVal)
    (price : Option Rat) (hb : body.isNullish = false) :
    (afterPayment env body id question mode price).events
      = [Event.payment price, Event.backend question mode] := by
  unfold afterPayment handleCatch
  rw [hb]
  cases env.backend question mode with
  | error msg => rfl
  | ok resp =>
    obtain ⟨rok, rstatus, rjson⟩ := resp
    cases rok with
    | false => rfl
    | true =>
      cases rjson with
      | error m => rfl
      | ok data => cases data <;> rfl

/-- The post-payment phase always emits a response (the body being
non-nullish, the catch block succeeds). -/
theorem afterPayment_responded (env : Env) (body id question mode : JSVal)
    (price : Option Rat) (hb : body.isNullish = false) :
    didRespond (afterPayment env body id question mode price) = true := by
  unfold afterPayment handleCatch
  rw [hb]
  cases env.backend question mode with
  | error msg => rfl
  | ok resp =>
    obtain ⟨rok, rstatus, rjson⟩ := resp
    cases rok with
    | false => rfl
    | true =>
      cases rjson with
      | error m => rfl
      | ok data => cases data <;> rfl

/-- When the payment gate returns, the handler proceeds to the backend. -/
theorem handle_askRag_payok (env : Env) (id question mode : JSVal)
    (hp : env.payment (lookupPrice (resolveMode mode)) = PayResult.ok) :
    handle (askRagBody id question mode) env
      = afterPayment env (askRagBody id question mode) id question
          (resolveMode mode) (lookupPrice (resolveMode mode)) := by
  rw [handle_askRag, hp]

/-- When the payment gate throws, the handler answers with the payment
failure envelope and no backend event is recorded. -/
theorem handle_askRag_payerr (env : Env) (id question mode : JSVal) (msg : String)
    (hp : env.payment (lookupPrice (resolveMode mode)) = PayResult.err msg) :
    handle (askRagBody id question mode) env
      = Outcome.responded
          (HttpResp.json (jsonrpcError id (-32603) ("Payment failed: " ++ msg)))
          [Event.payment (lookupPrice (resolveMode mode))] := by
  rw [handle_askRag, hp]

/-- The backend-call trace criterion: a backend event appears in the trace
of an `ask_rag` invocation exactly when the payment gate returned success
for that same invocation. -/
theorem backend_iff_pay (env : Env) (id question mode : JSVal) :
    hasBackendCall (handle (askRagBody id question mode) env) = true
      ↔ env.payment (lookupPrice (resolveMode mode)) = PayResult.ok := by
  constructor
  · intro hB
    cases hpp : env.payment (lookupPrice (resolveMode mode)) with
    | ok => rfl
    | err m =>
      rw [handle_askRag_payerr env id question mode m hpp] at hB
      simp [hasBackendCall, Outcome.events, isBackendEv] at hB
  · intro hp
    rw [handle_askRag_payok env id question mode hp]
    unfold hasBackendCall
    rw [afterPayment_events env _ id question (resolveMode mode) _
      (askRagBody_not_nullish id question mode)]
    simp [isBackendEv]

/-- Claim C1: for every `tools/call` of `ask_rag`, the backend is called if
and only if the payment gate succeeded for that same invocation; when the
payment collaborator throws, the handler replies with a `-32603` envelope
whose message carries the collaborator's failure reason and the backend is
never contacted; when it succeeds, exactly one backend request follows. -/
theorem c1_backend_iff_payment (env : Env) (id question mode : JSVal) :
    (hasBackendCall (handle (askRagBody id question mode) env) = true
        ↔ env.payment (lookupPrice (resolveMode mode)) = PayResult.ok)
  ∧ (∀ msg, env.payment (lookupPrice (resolveMode mode)) = PayResult.err msg →
      handle (askRagBody id question mode) env
        = Outcome.responded
            (HttpResp.json (jsonrpcError id (-32603) ("Payment failed: " ++ msg)))
            [Event.payment (lookupPrice (resolveMode mode))])
  ∧ (env.payment (lookupPrice (resolveMode mode)) = PayResult.ok →
      countBackend (handle (askRagBody id question mode) env) = 1) := by
  refine ⟨backend_iff_pay env id question mode,
    fun msg hmsg => handle_askRag_payerr env id question mode msg hmsg,
    fun hp => ?_⟩
  rw [handle_askRag_payok env id question mode hp]
  unfold countBackend
  rw [afterPayment_events env _ id question (resolveMode mode) _
    (askRagBody_not_nullish id question mode)]
  simp [isBackendEv, isPaymentEv]

/-- Witness for C1 at a concrete denial: the payment-failure envelope is
returned and the trace holds only the payment attempt. -/
theorem c1_witness :
    handle (askRagBody (.num 1) (.str "q") (.str "qa")) payFailEnv
      = Outcome.responded
          (HttpResp.json (jsonrpcError (.num 1) (-32603) "Payment failed: declined"))
          [Event.payment (some (1/100))] :=
  (c1_backend_iff_payment payFailEnv (.num 1) (.str "q") (.str "qa")).2.1 "declined" rfl

/-- Claim C2: for a resolved mode in the price table, the amount passed to
the payment collaborator is exactly the table's entry (0.01 for qa, 0.05
for summary and auto), the payment call happens exactly once, and it is the
first collaborator event of the invocation — hence strictly before any
backend call. -/
theorem c2_price_per_mode (env : Env) (id question mode : JSVal) (s : String)
    (hs : s = "qa" ∨ s = "summary" ∨ s = "auto")
    (hm : resolveMode mode = JSVal.str s) :
    lookupPrice (resolveMode mode)
        = some (if s = "qa" then (1:Rat)/100 else 5/100)
  ∧ countPayment (handle (askRagBody id question mode) env) = 1
  ∧ ∃ rest, (handle (askRagBody id question mode) env).events
        = Event.payment (lookupPrice (resolveMode mode)) :: rest := by
  have hp : lookupPrice (resolveMode mode)
      = some (if s = "qa" then (1:Rat)/100 else 5/100) := by
    rw [hm]
    rcases hs with h | h | h <;> subst h <;> rfl
  refine ⟨hp, ?_, ?_⟩
  · cases hpay : env.payment (lookupPrice (resolveMode mode)) with
    | ok =>
      rw [handle_askRag_payok env id question mode hpay]
      unfold countPayment
      rw [afterPayment_events env _ id question (resolveMode mode) _
        (askRagBody_not_nullish id question mode)]
      simp [isPaymentEv, isBackendEv]
    | err m =>
      rw [handle_askRag_payerr env id question mode m hpay]
      simp [countPayment, Outcome.events, isPaymentEv]
  · cases hpay : env.payment (lookupPrice (resolveMode mode)) with
    | ok =>
      rw [handle_askRag_payok env id question mode hpay]
      exact ⟨[Event.backend question (resolveMode mode)],
        afterPayment_events env _ id question (resolveMode mode) _
          (askRagBody_not_nullish id question mode)⟩
    | err m =>
      rw [handle_askRag_payerr env id question mode m hpay]
      exact ⟨[], rfl⟩

/-- Witness for C2 at mode `qa`: the gate is asked for exactly 0.01, once,
as the first event. -/
theorem c2_witness :
    lookupPrice (resolveMode (.str "qa")) = some ((1:Rat)/100)
  ∧ countPayment (handle (askRagBody (.num 1) (.str "q") (.str "qa")) payOkEnv) = 1
  ∧ ∃ rest, (handle (askRagBody (.num 1) (.str "q") (.str "qa")) payOkEnv).events
        = Event.payment (lookupPrice (resolveMode (.str "qa"))) :: rest :=
  c2_price_per_mode payOkEnv (.num 1) (.str "q") (.str "qa") "qa" (Or.inl rfl) rfl

/-- The post-payment phase only ever produces a success envelope (no error
code) or an internal `-32603` envelope. -/
theorem afterPayment_errorCode (env : Env) (body id question mode : JSVal)
    (price : Option Rat) (hb : body.isNullish = false) :
    errorCodeOf (afterPayment env body id question mode price) = none
  ∨ errorCodeOf (afterPayment env body id question mode price) = some (-32603) := by
  unfold afterPayment handleCatch
  rw [hb]
  cases env.backend question mode with
  | error msg => right; rfl
  | ok resp =>
    obtain ⟨rok, rstatus, rjson⟩ := resp
    cases rok with
    | false => right; rfl
    | true =>
      cases rjson with
      | error m => right; rfl
      | ok data => cases data <;> first | (left; rfl) | (right; rfl)

/-- Totality of the dispatcher on bodies that destructure: exactly one
response is emitted, whatever the method, params or collaborators do. -/
theorem handle_total (env : Env) (body : JSVal) (hb : body.isNullish = false) :
    didRespond (handle body env) = true := by
  unfold handle
  rw [hb]
  simp only [Bool.false_eq_true, if_false]
  split
  · rfl
  · split
    · rfl
    · split
      · rfl
      · split
        · split
          · unfold handleCatch; rw [hb]; rfl
          · split
            · unfold askRagCall
              split
              · unfold handleCatch; rw [hb]; rfl
              · dsimp only
                split
                · rfl
                · exact afterPayment_responded env body _ _ _ _ hb
            · rfl
        · rfl

/-- A nullish body crashes the handler: the destructuring throws and the
catch block's own `req.body.id` read throws again, so no response goes out. -/
theorem handle_nullish_crashes (env : Env) (body : JSVal)
    (hb : body.isNullish = true) :
    didRespond (handle body env) = false := by
  unfold handle handleCatch
  rw [hb]
  rfl

/-- Counterexample to claim C3: at the concrete invocation with an empty
`question` and no `mode`, the handler does not reply with an invalid-params
envelope — it proceeds to payment, calls the backend, and returns a success
result. -/
theorem c3_counterexample :
    handle (askRagBody (.num 7) (.str "") .undefined) payOkEnv
      = Outcome.responded
          (HttpResp.json (jsonrpcResult (.num 7) (successResult (.str "") qaAnswerData)))
          [Event.payment (some (5/100)), Event.backend (.str "") (.str "auto")]
  ∧ hasBackendCall (handle (askRagBody (.num 7) (.str "") .undefined) payOkEnv) = true
  ∧ errorCodeOf (handle (askRagBody (.num 7) (.str "") .undefined) payOkEnv) = none :=
  ⟨rfl, rfl, rfl⟩

/-- Claim C3 as amended: the handler performs no argument validation.  For
any `ask_rag` invocation — question absent, empty or arbitrary, mode absent
or arbitrary — no invalid-params (`-32602`) envelope is ever produced, the
handler still answers (no crash), and the backend is called exactly when
the payment gate succeeds (for an out-of-table mode the gate is passed the
JavaScript `undefined` price).  Only the defaulting half of the claim
holds: an absent mode resolves to `"auto"`. -/
theorem c3_amended_no_validation (env : Env) (id question mode : JSVal) :
    errorCodeOf (handle (askRagBody id question mode) env) ≠ some (-32602)
  ∧ didRespond (handle (askRagBody id question mode) env) = true
  ∧ (hasBackendCall (handle (askRagBody id question mode) env) = true
      ↔ env.payment (lookupPrice (resolveMode mode)) = PayResult.ok)
  ∧ resolveMode JSVal.undefined = JSVal.str "auto" := by
  refine ⟨?_, handle_total env _ (askRagBody_not_nullish id question mode),
    backend_iff_pay env id question mode, rfl⟩
  cases hpay : env.payment (lookupPrice (resolveMode mode)) with
  | err m =>
    rw [handle_askRag_payerr env id question mode m hpay]
    show (some (-32603) : Option Int) ≠ some (-32602)
    decide
  | ok =>
    rw [handle_askRag_payok env id question mode hpay]
    rcases afterPayment_errorCode env (askRagBody id question mode) id question
      (resolveMode mode) (lookupPrice (resolveMode mode))
      (askRagBody_not_nullish id question mode) with h | h <;> rw [h] <;> decide

/-- Witness for the amended C3 at a concrete out-of-table mode. -/
theorem c3_witness :
    errorCodeOf (handle (askRagBody (.num 2) (.str "x") (.str "fast")) payOkEnv) ≠ some (-32602)
  ∧ didRespond (handle (askRagBody (.num 2) (.str "x") (.str "fast")) payOkEnv) = true
  ∧ (hasBackendCall (handle (askRagBody (.num 2) (.str "x") (.str "fast")) payOkEnv) = true
      ↔ payOkEnv.payment (lookupPrice (resolveMode (.str "fast"))) = PayResult.ok)
  ∧ resolveMode JSVal.undefined = JSVal.str "auto" :=
  c3_amended_no_validation payOkEnv (.num 2) (.str "x") (.str "fast")

/-- Counterexample to claim C4: a payment denial and a backend non-success
produce error envelopes with the same numeric code `-32603` — the two
failure domains are not distinguishable by numeric category. -/
theorem c4_counterexample :
    errorCodeOf (handle (askRagBody (.num 1) (.str "q") (.str "qa")) payFailEnv)
        = some (-32603)
  ∧ errorCodeOf (handle (askRagBody (.num 2) (.str "q") (.str "qa")) backend500Env)
        = some (-32603) :=
  ⟨rfl, rfl⟩

/-- Claim C4 as amended: a payment denial yields a `-32603` envelope with
message `Payment failed: <reason>`, and a backend non-success status after
successful authorization yields a `-32603` envelope with message
`RAG backend returned <status>`; the numeric code is the same for both, so
the two failure domains are distinguishable only by message text. -/
theorem c4_amended_same_code (env : Env) (id question mode : JSVal) :
    (∀ msg, env.payment (lookupPrice (resolveMode mode)) = PayResult.err msg →
      handle (askRagBody id question mode) env
        = Outcome.responded
            (HttpResp.json (jsonrpcError id (-32603) ("Payment failed: " ++ msg)))
            [Event.payment (lookupPrice (resolveMode mode))])
  ∧ (∀ st rjson, env.payment (lookupPrice (resolveMode mode)) = PayResult.ok →
      env.backend question (resolveMode mode) = Except.ok ⟨false, st, rjson⟩ →
      handle (askRagBody id question mode) env
        = Outcome.responded
            (HttpResp.json (jsonrpcError id (-32603)
              ("RAG backend returned " ++ toString st)))
            [Event.payment (lookupPrice (resolveMode mode)),
             Event.backend question (resolveMode mode)]) := by
  refine ⟨fun msg hmsg => handle_askRag_payerr env id question mode msg hmsg,
    fun st rjson hp hB => ?_⟩
  rw [handle_askRag_payok env id question mode hp]
  unfold afterPayment
  rw [hB]
  rfl

/-- Witness for the amended C4: the two concrete failure envelopes, one per
failure domain, both carrying code `-32603`. -/
theorem c4_witness :
    handle (askRagBody (.num 1) (.str "q") (.str "qa")) payFailEnv
      = Outcome.responded
          (HttpResp.json (jsonrpcError (.num 1) (-32603) "Payment failed: declined"))
          [Event.payment (some (1/100))]
  ∧ handle (askRagBody (.num 2) (.str "q") (.str "qa")) backend500Env
      = Outcome.responded
          (HttpResp.json (jsonrpcError (.num 2) (-32603) "RAG backend returned 500"))
          [Event.payment (some (1/100)), Event.backend (.str "q") (.str "qa")] :=
  ⟨(c4_amended_same_code payFailEnv (.num 1) (.str "q") (.str "qa")).1 "declined" rfl,
   (c4_amended_same_code backend500Env (.num 2) (.str "q") (.str "qa")).2 500
     (Except.ok .null) rfl rfl⟩

/-- Counterexample to claim C5: for the inbound POST body `undefined` (a
POST without a JSON body), the dispatcher emits no response at all — the
destructuring fault is rethrown from the catch block's `req.body.id` read. -/
theorem c5_counterexample : didRespond (handle JSVal.undefined payOkEnv) = false := rfl

/-- Claim C5 as amended: the dispatcher is total on bodies that destructure
(any JSON object or array): exactly one response is emitted whatever the
method, params or fault.  When the body is `null`/`undefined`, the handler
itself crashes while building the error envelope and no response goes out. -/
theorem c5_amended_total_on_objects (env : Env) (body : JSVal) :
    (body.isNullish = false → didRespond (handle body env) = true)
  ∧ (body.isNullish = true → didRespond (handle body env) = false) :=
  ⟨handle_total env body, handle_nullish_crashes env body⟩

/-- Witness for the amended C5 at two concrete bodies. -/
theorem c5_witness :
    didRespond (handle (JSVal.obj []) payOkEnv) = true
  ∧ didRespond (handle JSVal.null payOkEnv) = false :=
  ⟨(c5_amended_total_on_objects payOkEnv (JSVal.obj [])).1 rfl,
   (c5_amended_total_on_objects payOkEnv JSVal.null).2 rfl⟩

/-- Every JSON body the post-payment phase sends carries the request's id. -/
theorem afterPayment_id (env : Env) (body question mode : JSVal)
    (price : Option Rat) (hb : body.isNullish = false) :
    respondsWithId body
      (afterPayment env body (body.get "id") question mode price) := by
  unfold afterPayment handleCatch
  rw [hb]
  cases env.backend question mode with
  | error msg => rfl
  | ok resp =>
    obtain ⟨rok, rstatus, rjson⟩ := resp
    cases rok with
    | false => rfl
    | true =>
      cases rjson with
      | error m => rfl
      | ok data => cases data <;> rfl

/-- Every JSON body the dispatcher sends carries the request's id. -/
theorem handle_id_echo (env : Env) (body : JSVal) (hb : body.isNullish = false) :
    respondsWithId body (handle body env) := by
  unfold handle
  rw [hb]
  simp only [Bool.false_eq_true, if_false]
  split
  · rfl
  · split
    · trivial
    · split
      · rfl
      · split
        · split
          · unfold handleCatch; rw [hb]; rfl
          · split
            · unfold askRagCall
              split
              · unfold handleCatch; rw [hb]; rfl
              · dsimp only
                split
                · rfl
                · exact afterPayment_id env body _ _ _ hb
            · rfl
        · rfl

/-- Claim C6: for every supported method, including every error response,
the response envelope's id equals the request's id; the initialized
notification gets an empty response body and never an error. -/
theorem c6_id_echo (env : Env) (body : JSVal) (hb : body.isNullish = false) :
    (∀ v evs, handle body env = Outcome.responded (HttpResp.json v) evs →
      v.get "id" = body.get "id")
  ∧ ((body.get "method").isStr "notifications/initialized" = true →
      handle body env = Outcome.responded HttpResp.empty200 []) := by
  constructor
  · intro v evs h
    have hh := handle_id_echo env body hb
    rw [h] at hh
    exact hh
  · intro hm
    have hm' := (isStr_iff _ _).mp hm
    unfold handle
    rw [hb, hm']
    rfl

/-- Witness for C6: concrete id echo on a success envelope and the empty
notification response. -/
theorem c6_witness :
    (jsonrpcResult (.num 9) (successResult (.str "q") qaAnswerData)).get "id"
      = (askRagBody (.num 9) (.str "q") (.str "qa")).get "id"
  ∧ handle (JSVal.obj [("method", JSVal.str "notifications/initialized")]) payOkEnv
      = Outcome.responded HttpResp.empty200 [] :=
  ⟨(c6_id_echo payOkEnv (askRagBody (.num 9) (.str "q") (.str "qa")) rfl).1
      (jsonrpcResult (.num 9) (successResult (.str "q") qaAnswerData))
      [Event.payment (some (1/100)), Event.backend (.str "q") (.str "qa")] rfl,
   (c6_id_echo payOkEnv (JSVal.obj [("method", JSVal.str "notifications/initialized")]) rfl).2 rfl⟩

/-- Claim C7: `tools/list` answers with exactly one tool descriptor, named
`ask_rag`, whose schema requires `question` (a string) and allows an
optional `mode` enumeration over auto/qa/summary defaulting to auto; the
trace is empty, so no payment authorization is involved. -/
theorem c7_tools_list (env : Env) (body : JSVal) (hb : body.isNullish = false)
    (hm : (body.get "method").isStr "tools/list" = true) :
    handle body env
      = Outcome.responded
          (HttpResp.json (jsonrpcResult (body.get "id") toolsListResult)) []
  ∧ countPayment (handle body env) = 0
  ∧ toolsListResult.get "tools" = JSVal.arr [askRagTool]
  ∧ askRagTool.get "name" = JSVal.str "ask_rag"
  ∧ (askRagTool.get "inputSchema").get "required" = JSVal.arr [JSVal.str "question"]
  ∧ (((askRagTool.get "inputSchema").get "properties").get "question").get "type"
      = JSVal.str "string"
  ∧ (((askRagTool.get "inputSchema").get "properties").get "mode").get "enum"
      = JSVal.arr [JSVal.str "auto", JSVal.str "qa", JSVal.str "summary"]
  ∧ (((askRagTool.get "inputSchema").get "properties").get "mode").get "default"
      = JSVal.str "auto" := by
  have hmain : handle body env
      = Outcome.responded
          (HttpResp.json (jsonrpcResult (body.get "id") toolsListResult)) [] := by
    have hm' := (isStr_iff _ _).mp hm
    unfold handle
    rw [hb, hm']
    rfl
  exact ⟨hmain, by rw [hmain]; rfl, rfl, rfl, rfl, rfl, rfl, rfl⟩

/-- Witness for C7 at a concrete `tools/list` request. -/
theorem c7_witness :
    handle (JSVal.obj [("method", JSVal.str "tools/list"), ("id", JSVal.num 3)]) payOkEnv
      = Outcome.responded
          (HttpResp.json (jsonrpcResult (JSVal.num 3) toolsListResult)) [] :=
  (c7_tools_list payOkEnv
    (JSVal.obj [("method", JSVal.str "tools/list"), ("id", JSVal.num 3)]) rfl rfl).1

/-- Claim C8: for any backend success payload `{mode, answer}` (both
strings) and any question string, the result is one textual content block
whose text contains the question, the backend-reported mode and the answer,
each verbatim. -/
theorem c8_round_trip (env : Env) (id mode : JSVal) (qs dm da : String)
    (st : Nat)
    (hpay : env.payment (lookupPrice (resolveMode mode)) = PayResult.ok)
    (hback : env.backend (JSVal.str qs) (resolveMode mode)
      = Except.ok ⟨true, st,
          Except.ok (JSVal.obj [("mode", JSVal.str dm), ("answer", JSVal.str da)])⟩) :
    handle (askRagBody id (JSVal.str qs) mode) env
      = Outcome.responded
          (HttpResp.json (jsonrpcResult id
            (successResult (JSVal.str qs)
              (JSVal.obj [("mode", JSVal.str dm), ("answer", JSVal.str da)]))))
          [Event.payment (lookupPrice (resolveMode mode)),
           Event.backend (JSVal.str qs) (resolveMode mode)]
  ∧ successResult (JSVal.str qs) (JSVal.obj [("mode", JSVal.str dm), ("answer", JSVal.str da)])
      = JSVal.obj [("content", JSVal.arr [JSVal.obj [("type", JSVal.str "text"),
          ("text", JSVal.str (formatText (JSVal.str qs) (JSVal.str dm) (JSVal.str da)))]])]
  ∧ containsSub qs (formatText (JSVal.str qs) (JSVal.str dm) (JSVal.str da))
  ∧ containsSub dm (formatText (JSVal.str qs) (JSVal.str dm) (JSVal.str da))
  ∧ containsSub da (formatText (JSVal.str qs) (JSVal.str dm) (JSVal.str da)) := by
  refine ⟨?_, rfl, ?_, ?_, ?_⟩
  · rw [handle_askRag_payok env id (JSVal.str qs) mode hpay]
    unfold afterPayment
    rw [hback]
    rfl
  · refine ⟨"Question: ", "\nMode: " ++ dm ++ "\n\nAnswer:\n" ++ da, ?_⟩
    simp [formatText, jsTemplate, String.append_assoc]
  · refine ⟨"Question: " ++ qs ++ "\nMode: ", "\n\nAnswer:\n" ++ da, ?_⟩
    simp [formatText, jsTemplate, String.append_assoc]
  · refine ⟨"Question: " ++ qs ++ "\nMode: " ++ dm ++ "\n\nAnswer:\n", "", ?_⟩
    simp [formatText, jsTemplate, String.append_assoc]

/-- Witness for C8 on the spec's own example payload. -/
theorem c8_witness :
    containsSub "What is the answer?"
      (formatText (JSVal.str "What is the answer?") (JSVal.str "qa") (JSVal.str "42"))
  ∧ containsSub "qa"
      (formatText (JSVal.str "What is the answer?") (JSVal.str "qa") (JSVal.str "42"))
  ∧ containsSub "42"
      (formatText (JSVal.str "What is the answer?") (JSVal.str "qa") (JSVal.str "42")) :=
  (c8_round_trip payOkEnv (.num 1) (.str "qa") "What is the answer?" "qa" "42" 200
    rfl rfl).2.2

/-- Claim C9: a `tools/call` with any other tool name, and any unsupported
top-level method, are answered with a `-32601` envelope and an empty trace
(no payment, no backend); `initialize` needs no precondition and always
returns the same fixed capabilities descriptor, also with an empty trace. -/
theorem c9_unknown_and_init (env : Env) (body : JSVal) (hb : body.isNullish = false) :
    (∀ name, (body.get "method").isStr "tools/call" = true →
      (body.get "params").isNullish = false →
      (body.get "params").get "name" = name →
      name.isStr "ask_rag" = false →
      handle body env
        = Outcome.responded (HttpResp.json (jsonrpcError (body.get "id") (-32601)
            ("Unknown tool: " ++ jsTemplate name))) [])
  ∧ ((body.get "method").isStr "initialize" = false →
      (body.get "method").isStr "notifications/initialized" = false →
      (body.get "method").isStr "tools/list" = false →
      (body.get "method").isStr "tools/call" = false →
      handle body env
        = Outcome.responded (HttpResp.json (jsonrpcError (body.get "id") (-32601)
            ("Unknown method: " ++ jsTemplate (body.get "method")))) [])
  ∧ ((body.get "method").isStr "initialize" = true →
      handle body env
        = Outcome.responded (HttpResp.json (jsonrpcResult (body.get "id") initResult)) [])
  ∧ initResult.get "protocolVersion" = JSVal.str "2024-11-05"
  ∧ (initResult.get "capabilities").get "tools" = JSVal.obj []
  ∧ (initResult.get "serverInfo").get "name" = JSVal.str "interview-rag-server"
  ∧ (initResult.get "serverInfo").get "version" = JSVal.str "1.0.0" := by
  refine ⟨?_, ?_, ?_, rfl, rfl, rfl, rfl⟩
  · intro name hm hpar hname hn
    have hm' := (isStr_iff _ _).mp hm
    unfold handle
    rw [hb]
    dsimp only
    rw [hm', hpar, hname, hn]
    rfl
  · intro h1 h2 h3 h4
    unfold handle
    rw [hb]
    dsimp only
    rw [h1, h2, h3, h4]
    rfl
  · intro hm
    have hm' := (isStr_iff _ _).mp hm
    unfold handle
    rw [hb, hm']
    rfl

/-- Witness for C9: a concrete unknown tool, a concrete unknown method, and
a concrete `initialize` call. -/
theorem c9_witness :
    handle (JSVal.obj [("method", JSVal.str "tools/call"), ("id", JSVal.num 4),
        ("params", JSVal.obj [("name", JSVal.str "other")])]) payOkEnv
      = Outcome.responded (HttpResp.json (jsonrpcError (JSVal.num 4) (-32601)
          "Unknown tool: other")) []
  ∧ handle (JSVal.obj [("method", JSVal.str "frobnicate"), ("id", JSVal.num 5)]) payOkEnv
      = Outcome.responded (HttpResp.json (jsonrpcError (JSVal.num 5) (-32601)
          "Unknown method: frobnicate")) []
  ∧ handle (JSVal.obj [("method", JSVal.str "initialize"), ("id", JSVal.num 6)]) payOkEnv
      = Outcome.responded (HttpResp.json (jsonrpcResult (JSVal.num 6) initResult)) [] :=
  ⟨(c9_unknown_and_init payOkEnv
      (JSVal.obj [("method", JSVal.str "tools/call"), ("id", JSVal.num 4),
        ("params", JSVal.obj [("name", JSVal.str "other")])]) rfl).1
      (JSVal.str "other") rfl rfl rfl rfl,
   (c9_unknown_and_init payOkEnv
      (JSVal.obj [("method", JSVal.str "frobnicate"), ("id", JSVal.num 5)]) rfl).2.1
      rfl rfl rfl rfl,
   (c9_unknown_and_init payOkEnv
      (JSVal.obj [("method", JSVal.str "initialize"), ("id", JSVal.num 6)]) rfl).2.2.1 rfl⟩

/-- Claim C10: a `tools/call` whose `params` is absent, or an `ask_rag`
call whose `arguments` is absent, throws in the destructuring; the
top-level catch answers it with a `-32603` internal-error envelope carrying
the original id, with no payment and no backend call. -/
theorem c10_nullish_params_internal_error (env : Env) (body : JSVal)
    (hb : body.isNullish = false)
    (hm : (body.get "method").isStr "tools/call" = true) :
    ((body.get "params").isNullish = true →
      handle body env
        = Outcome.responded (HttpResp.json (jsonrpcError (body.get "id") (-32603)
            (destructureMsg "name" (body.get "params")))) [])
  ∧ (((body.get "params").get "name").isStr "ask_rag" = true →
      (body.get "params").isNullish = false →
      ((body.get "params").get "arguments").isNullish = true →
      handle body env
        = Outcome.responded (HttpResp.json (jsonrpcError (body.get "id") (-32603)
            (destructureMsg "question" ((body.get "params").get "arguments")))) []) := by
  have hm' := (isStr_iff _ _).mp hm
  constructor
  · intro hpar
    unfold handle handleCatch
    rw [hb]
    dsimp only
    rw [hm', hpar]
    rfl
  · intro hname hpar hargs
    have hname' := (isStr_iff _ _).mp hname
    unfold handle askRagCall handleCatch
    rw [hb]
    dsimp only
    rw [hm', hpar, hname', hargs]
    rfl

/-- Witness for C10: params absent, and arguments absent, each answered
with a `-32603` envelope echoing the id. -/
theorem c10_witness :
    handle (JSVal.obj [("method", JSVal.str "tools/call"), ("id", JSVal.num 8)]) payOkEnv
      = Outcome.responded (HttpResp.json (jsonrpcError (JSVal.num 8) (-32603)
          (destructureMsg "name" JSVal.undefined))) []
  ∧ handle (JSVal.obj [("method", JSVal.str "tools/call"), ("id", JSVal.num 9),
        ("params", JSVal.obj [("name", JSVal.str "ask_rag")])]) payOkEnv
      = Outcome.responded (HttpResp.json (jsonrpcError (JSVal.num 9) (-32603)
          (destructureMsg "question" JSVal.undefined))) [] :=
  ⟨(c10_nullish_params_internal_error payOkEnv
      (JSVal.obj [("method", JSVal.str "tools/call"), ("id", JSVal.num 8)]) rfl rfl).1 rfl,
   (c10_nullish_params_internal_error payOkEnv
      (JSVal.obj [("method", JSVal.str "tools/call"), ("id", JSVal.num 9),
        ("params", JSVal.obj [("name", JSVal.str "ask_rag")])]) rfl rfl).2 rfl rfl rfl⟩
